import Mathlib

/-!
Shallow embedding of the reward/economy engine of the halloween bot
(`src/index.js`).  JavaScript numbers that hold integers (candy balances,
timestamps, millisecond durations) are modelled as `ℤ`; the results of
`Math.random()` (uniform draws in `[0,1)`) are modelled as `ℚ`, with
`Math.floor` / `Math.ceil` as `Int.floor` / `Int.ceil`.  The Firestore
document store is modelled as a partial map from user ids to profiles, and
the `getDoc` failure path (the `catch` in `getUserProfile`) as an explicit
boolean flag.  Each definition mirrors the correspondingly named function
or inline block of `src/index.js`.
-/

namespace HalloweenBot

/-- A shop item as declared in `SHOP_ITEMS` (src/index.js lines 75-79). -/
structure ShopItem where
  id : String
  name : String
  cost : ℤ
  title : String
  color : String
deriving DecidableEq, Repr

/-- The fixed shop catalog `SHOP_ITEMS` (src/index.js lines 75-79). -/
def SHOP_ITEMS : List ShopItem :=
  [ { id := "hat", name := "Witch\x27s Hat", cost := 50, title := "The Bewitched", color := "#8b008b" },
    { id := "mask", name := "Jason Mask", cost := 150, title := "The Maniac", color := "#b22222" },
    { id := "ghost", name := "Ghostly Shroud", cost := 300, title := "A Vile Specter", color := "#cccccc" } ]

/-- The spec names the catalog accessor `listItems`; in the source it is the
module-level constant `SHOP_ITEMS` read by `handleShop`. -/
def listItems : List ShopItem := SHOP_ITEMS

/-- A user profile document (fields as stored under `candy_data/profile`).
`username` is absent until the first successful reward action writes it. -/
structure Profile where
  candy : ℤ
  title : String
  inventory : List String
  lastUsed : ℤ
  username : Option String := none
deriving DecidableEq, Repr

/-- The per-user document store: user id to stored profile, `none` when the
user has no stored record. -/
def Store := String → Option Profile

/-- Default profile for new users (src/index.js lines 97-102). -/
def defaultProfile : Profile :=
  { candy := 0, title := "New Trick-or-Treater", inventory := [], lastUsed := 0 }

/-- Fallback profile returned when the read throws (src/index.js line 106). -/
def errorProfile : Profile :=
  { candy := 0, title := "Error Status", inventory := [], lastUsed := 0 }

/-- `getUserProfile` (src/index.js lines 86-108): returns the stored data if
the document exists, the default profile for new users, and the `catch`
fallback when the read fails (`readFails = true`). -/
def getUserProfile (store : Store) (readFails : Bool) (uid : String) : Profile :=
  if readFails then errorProfile
  else match store uid with
    | some p => p
    | none => defaultProfile

/-- `COOLDOWN_TIME` (src/index.js line 72): 2 hours in milliseconds. -/
def COOLDOWN_TIME : ℤ := 2 * 60 * 60 * 1000

/-- Result of the cooldown check. -/
inductive CooldownResult
  | allowed
  | blocked (remaining : ℤ)
deriving DecidableEq, Repr

/-- The cooldown gate, the condition of src/index.js line 200:
`lastUsed + COOLDOWN_TIME > now` blocks with
`remaining = lastUsed + COOLDOWN_TIME - now` (line 201). -/
def isAllowed (lastUsed now cooldownDuration : ℤ) : CooldownResult :=
  if lastUsed + cooldownDuration > now then
    .blocked (lastUsed + cooldownDuration - now)
  else .allowed

/-- The remaining-time display of src/index.js lines 202-203:
`Math.floor(remainingTime / (1000*60*60))` hours and
`Math.ceil((remainingTime % (1000*60*60)) / (1000*60))` minutes. -/
def formatRemaining (remainingTime : ℤ) : ℤ × ℤ :=
  (⌊(remainingTime : ℚ) / (1000 * 60 * 60)⌋,
   ⌈((remainingTime % (1000 * 60 * 60) : ℤ) : ℚ) / (1000 * 60)⌉)

/-- The trick flavor-text lines (src/index.js lines 228-232), built from the
(post-clamp) lost amount `Math.abs(candyChange)`. -/
def tricks (amt : ℕ) : List String :=
  [ "A zombie swapped your bag for one full of leaves! You lost **" ++ toString amt ++ "** candy.",
    "You stepped on a cursed pumpkin! Your pants are wet, and you dropped **" ++ toString amt ++ "** candy.",
    "The door was a giant spider web! You were sticky for 5 minutes and lost **" ++ toString amt ++ "** candy." ]

/-- The outcome of one reward action: the fields computed by the random-event
block of `handleTrickOrTreat` (src/index.js lines 211-252). -/
structure Outcome where
  candyChange : ℤ
  isTrick : Bool
  title : String
  color : String
  message : String
deriving DecidableEq, Repr

/-- The random-event block of `handleTrickOrTreat` (src/index.js lines
211-252) as a pure function of the pre-read balance and the stream of
`Math.random()` draws, indexed in call order: `rng 0` is the trick/treat
draw (line 212); in the trick branch `rng 1` is the magnitude draw (line
218) and `rng 2` the message draw (line 233); in the treat branch `rng 1`
is the tier draw (line 237) and `rng 2` the magnitude draw. -/
def computeOutcome (candy : ℤ) (rng : ℕ → ℚ) : Outcome :=
  if rng 0 < 0.10 then
    let raw : ℤ := -⌊rng 1 * 6⌋ - 1
    let candyChange : ℤ := if candy + raw < 0 then -candy else raw
    let msgs := tricks (Int.natAbs candyChange)
    { candyChange := candyChange, isTrick := true,
      title := "A Nasty Trick!", color := "#b22222",
      message := msgs.getD (⌊rng 2 * (msgs.length : ℚ)⌋).toNat "" }
  else
    if rng 1 < 0.75 then
      let candyChange : ℤ := ⌊rng 2 * 5⌋ + 1
      { candyChange := candyChange, isTrick := false,
        title := "A Sweet Treat!", color := "#ff6700",
        message := "You got " ++ toString candyChange ++ " pieces of candy!" }
    else if rng 1 < 0.95 then
      let candyChange : ℤ := ⌊rng 2 * 10⌋ + 6
      { candyChange := candyChange, isTrick := false,
        title := "Bonus Haul!", color := "#ffd700",
        message := "You got " ++ toString candyChange ++ " pieces of candy!" }
    else
      let candyChange : ℤ := ⌊rng 2 * 20⌋ + 16
      { candyChange := candyChange, isTrick := false,
        title := "Jackpot! The Motherlode!", color := "#A020F0",
        message := "You got " ++ toString candyChange ++ " pieces of candy!" }

/-- The `runTransaction` body of `handleTrickOrTreat` (src/index.js lines
255-265): reads the latest stored record (default when absent), adds
`candyChange` to its balance with no further clamp, stamps `lastUsed` and
`username`, writes the record back, and returns the written record. -/
def applyRewardTransaction (store : Store) (uid username : String)
    (now candyChange : ℤ) : Store × Profile :=
  let currentData := match store uid with
    | some p => p
    | none => defaultProfile
  let updated : Profile :=
    { currentData with
      candy := currentData.candy + candyChange,
      lastUsed := now,
      username := some username }
  (fun u => if u = uid then some updated else store u, updated)

/-- The reply of `/trickortreat`: either the cooldown message (hours and
minutes of src/index.js line 206) or the reward embed fields
(outcome and post-transaction total, lines 267-277). -/
inductive TrickOrTreatReply
  | blocked (hours minutes : ℤ)
  | rewarded (outcome : Outcome) (totalCandy : ℤ)
deriving DecidableEq, Repr

/-- `handleTrickOrTreat` (src/index.js lines 194-278). -/
def handleTrickOrTreat (store : Store) (readFails : Bool) (uid username : String)
    (now : ℤ) (rng : ℕ → ℚ) : Store × TrickOrTreatReply :=
  let profile := getUserProfile store readFails uid
  match isAllowed profile.lastUsed now COOLDOWN_TIME with
  | .blocked remainingTime =>
      (store, .blocked (formatRemaining remainingTime).1 (formatRemaining remainingTime).2)
  | .allowed =>
      let outcome := computeOutcome profile.candy rng
      let result := applyRewardTransaction store uid username now outcome.candyChange
      (result.1, .rewarded outcome result.2.candy)

/-- The per-item lookup of `handleInventory` (src/index.js line 294):
`SHOP_ITEMS.find(i => i.id === id).name`, totalized — `none` when the id is
not in the catalog (in JavaScript the `.name` access on `undefined` throws). -/
def itemName (id : String) : Option String :=
  (SHOP_ITEMS.find? (fun i => i.id == id)).map ShopItem.name

/-- The `Items Owned` field of `handleInventory` (src/index.js line 294):
`inventory.length > 0 ? inventory.map(id => ...name).join(', ') : 'None'`,
totalized over the catalog lookup. -/
def itemsOwnedField (inventory : List String) : Option String :=
  if inventory.length > 0 then
    (inventory.mapM itemName).map (String.intercalate ", ")
  else some "None"

/-- `handleInventory` (src/index.js lines 283-299): displayed title
(`profile.title || 'New Trick-or-Treater'`), candy count and the items-owned
field; `none` overall when an inventory id misses the catalog. -/
def handleInventory (store : Store) (readFails : Bool) (uid : String) :
    Store × Option (String × ℤ × String) :=
  let profile := getUserProfile store readFails uid
  let userTitle := if profile.title = "" then "New Trick-or-Treater" else profile.title
  (store, (itemsOwnedField profile.inventory).map (fun items => (userTitle, profile.candy, items)))

/-- The affordability status displayed per shop item (src/index.js line 314). -/
inductive Affordability
  | owned
  | buyable
  | tooExpensive
deriving DecidableEq, Repr

/-- The status computation of src/index.js lines 310 and 314:
`owned ? OWNED : (profile.candy >= item.cost ? BUYABLE : TOO POOR)`. -/
def affordability (profile : Profile) (item : ShopItem) : Affordability :=
  if profile.inventory.contains item.id then .owned
  else if profile.candy ≥ item.cost then .buyable
  else .tooExpensive

/-- The status string of src/index.js line 314. -/
def shopStatus (profile : Profile) (item : ShopItem) : String :=
  if profile.inventory.contains item.id then "✅ OWNED"
  else if profile.candy ≥ item.cost then "🟢 BUYABLE"
  else "🔴 TOO POOR"

/-- One item's block of the shop description (src/index.js lines 311-314). -/
def shopItemBlock (profile : Profile) (item : ShopItem) : String :=
  "**" ++ item.name ++ "**\n" ++
  "**Cost:** " ++ toString item.cost ++ " 🍬\n" ++
  "**Title:** \x60" ++ item.title ++ "\x60\n" ++
  "**Status:** " ++ shopStatus profile item ++ "\n\n"

/-- The full shop description built by `handleShop` (src/index.js lines
307-315): the balance header followed by one block per catalog item. -/
def shopDescription (profile : Profile) : String :=
  SHOP_ITEMS.foldl (fun acc item => acc ++ shopItemBlock profile item)
    ("You have **" ++ toString profile.candy ++ " 🍬** to spend.\n\n")

/-- `handleShop` (src/index.js lines 304-329): read-only, displays the
description. -/
def handleShop (store : Store) (readFails : Bool) (uid : String) : Store × String :=
  (store, shopDescription (getUserProfile store readFails uid))

/-- One profile document as returned by the leaderboard query
(`doc.data()` in src/index.js line 393). -/
structure ProfileDoc where
  username : Option String
  title : Option String
  candy : ℤ
deriving DecidableEq, Repr

/-- One leaderboard line (src/index.js line 394):
`**#${rank}** ${username || 'Mysterious User'} (\x60${title || 'Novice'}\x60): **${candy}** 🍬`. -/
def leaderboardLine (rank : ℕ) (d : ProfileDoc) : String :=
  "**#" ++ toString rank ++ "** " ++ d.username.getD "Mysterious User" ++
  " (\x60" ++ d.title.getD "Novice" ++ "\x60): **" ++ toString d.candy ++ "** 🍬"

/-- The `rank++` map of src/index.js lines 392-395: line `k` gets rank
`rank + k`, regardless of the candy values. -/
def leaderboardLines : ℕ → List ProfileDoc → List String
  | _, [] => []
  | rank, d :: ds => leaderboardLine rank d :: leaderboardLines (rank + 1) ds

/-- `Array.prototype.join('\n')` (src/index.js line 395). -/
def joinLines : List String → String
  | [] => ""
  | [s] => s
  | s :: rest => s ++ "\n" ++ joinLines (rest)

/-- The empty-leaderboard message (src/index.js line 390). -/
def emptyLeaderboardText : String :=
  "The spooky competition is empty! Be the first to use /trickortreat!"

/-- The catch-branch message when the global query fails
(src/index.js line 401). -/
def unavailableLeaderboardText : String :=
  "A Collection Group Index is likely missing in Firestore. You must create one for **\x60candy_data\x60** to see the leaderboard. Until then, go trick-or-treating!"

/-- `handleTopSpook` (src/index.js lines 334-411): `queryResult = none`
models the thrown query (the `catch` branch); an empty snapshot yields the
empty message; otherwise ranked lines joined with newlines.  Read-only. -/
def handleTopSpook (store : Store) (queryResult : Option (List ProfileDoc)) :
    Store × String :=
  match queryResult with
  | none => (store, unavailableLeaderboardText)
  | some docs =>
      if docs.isEmpty then (store, emptyLeaderboardText)
      else (store, joinLines (leaderboardLines 1 docs))

/-! ## Helper lemmas -/

/-- The floored-hours computation over ℚ agrees with integer division. -/
theorem floor_hours_eq (n : ℤ) : ⌊(n : ℚ) / (1000 * 60 * 60)⌋ = n / 3600000 := by
  have h : ((1000 * 60 * 60 : ℚ)) = ((3600000 : ℕ) : ℚ) := by norm_num
  rw [h, Rat.floor_intCast_div_natCast]
  norm_num

/-- The ceiling-of-minutes computation over ℚ as integer division. -/
theorem ceil_minutes_eq (c : ℤ) : ⌈(c : ℚ) / (1000 * 60)⌉ = -(-c / 60000) := by
  have h : ((1000 * 60 : ℚ)) = ((60000 : ℕ) : ℚ) := by norm_num
  have h2 : (c : ℚ) / ((60000 : ℕ) : ℚ) = -(((-c : ℤ) : ℚ) / ((60000 : ℕ) : ℚ)) := by
    push_cast
    ring
  rw [h, h2, Int.ceil_neg, Rat.floor_intCast_div_natCast]
  norm_num

/-! ## C4: cooldown gate -/

/-- C4: for all timestamps, the reward action is allowed iff
`lastUsed + cooldown ≤ now`, with the cooldown fixed at 2 hours
(7 200 000 ms); otherwise it is blocked with
`remaining = lastUsed + cooldown - now`, which is strictly positive; and
`handleTrickOrTreat` replies with the blocked message exactly when
`now < lastUsed + cooldown` for the profile it read. -/
theorem cooldown_gate_correct :
    COOLDOWN_TIME = 7200000 ∧
    (∀ lastUsed now : ℤ,
      (isAllowed lastUsed now COOLDOWN_TIME = .allowed ↔ lastUsed + COOLDOWN_TIME ≤ now) ∧
      (now < lastUsed + COOLDOWN_TIME →
        isAllowed lastUsed now COOLDOWN_TIME = .blocked (lastUsed + COOLDOWN_TIME - now) ∧
        0 < lastUsed + COOLDOWN_TIME - now)) ∧
    (∀ (store : Store) (readFails : Bool) (uid username : String) (now : ℤ) (rng : ℕ → ℚ),
      (∃ h m, (handleTrickOrTreat store readFails uid username now rng).2 =
        TrickOrTreatReply.blocked h m) ↔
      now < (getUserProfile store readFails uid).lastUsed + COOLDOWN_TIME) := by
  refine ⟨rfl, fun lastUsed now => ⟨?_, fun h => ⟨?_, by omega⟩⟩,
    fun store readFails uid username now rng => ?_⟩
  · unfold isAllowed
    split <;> rename_i hc
    · simp only [reduceCtorEq, false_iff]
      omega
    · simp only [true_iff]
      omega
  · unfold isAllowed
    rw [if_pos (by omega)]
  · by_cases hc : (getUserProfile store readFails uid).lastUsed + COOLDOWN_TIME > now
    · simp only [handleTrickOrTreat, isAllowed, if_pos hc]
      exact ⟨fun _ => hc, fun _ => ⟨_, _, rfl⟩⟩
    · simp only [handleTrickOrTreat, isAllowed, if_neg hc]
      constructor
      · rintro ⟨h, m, hh⟩
        exact absurd hh (by simp)
      · intro h
        omega

/-- Witness for C4 at `lastUsed = 0`, `now = 1000`. -/
theorem cooldown_gate_correct_witness :
    ((1000 : ℤ) < 0 + COOLDOWN_TIME) ∧
    (isAllowed 0 1000 COOLDOWN_TIME = .blocked (0 + COOLDOWN_TIME - 1000) ∧
      0 < 0 + COOLDOWN_TIME - 1000) :=
  ⟨by with_unfolding_all decide,
   (cooldown_gate_correct.2.1 0 1000).2 (by with_unfolding_all decide)⟩

/-! ## C5: remaining-time display -/

/-- C5: on a blocked action the displayed wait is
`hours = floor(remaining / 1h)` and
`minutes = ceiling((remaining mod 1h) / 1min)` (the remainder after removing
the floored hours, rounded up, hence positive whenever the remainder is);
`formatRemaining 5400000 = (1, 30)` and the minutes component at 1000 ms is
`1`, not `0`. -/
theorem remaining_display_correct :
    (∀ r : ℤ, 0 < r →
      (formatRemaining r).1 = r / 3600000 ∧
      (formatRemaining r).2 = (r % 3600000 + 59999) / 60000 ∧
      (0 < r % 3600000 → 0 < (formatRemaining r).2)) ∧
    formatRemaining 5400000 = (1, 30) ∧
    (formatRemaining 1000).2 = 1 := by
  refine ⟨fun r hr => ?_, by with_unfolding_all decide, by with_unfolding_all decide⟩
  have h1 : (formatRemaining r).1 = r / 3600000 := by
    show ⌊(r : ℚ) / (1000 * 60 * 60)⌋ = r / 3600000
    exact floor_hours_eq r
  have h2 : (formatRemaining r).2 = (r % 3600000 + 59999) / 60000 := by
    show ⌈((r % (1000 * 60 * 60) : ℤ) : ℚ) / (1000 * 60)⌉ = (r % 3600000 + 59999) / 60000
    rw [ceil_minutes_eq]
    have hnn : 0 ≤ r % 3600000 := Int.emod_nonneg r (by norm_num)
    omega
  refine ⟨h1, h2, fun hrem => ?_⟩
  rw [h2]
  omega

/-- Witness for C5 at `r = 5401000` (1h 30m 1s: hours 1, minutes 31). -/
theorem remaining_display_correct_witness :
    ((0 : ℤ) < 5401000) ∧
    ((formatRemaining 5401000).1 = 5401000 / 3600000 ∧
     (formatRemaining 5401000).2 = (5401000 % 3600000 + 59999) / 60000 ∧
     (0 < (5401000 : ℤ) % 3600000 → 0 < (formatRemaining 5401000).2)) :=
  ⟨by norm_num, remaining_display_correct.1 5401000 (by norm_num)⟩

/-! ## C1: the trick clamp is not recomputed inside the transaction -/

/-- C1 (refuted — code bug): the claim says the trick deduction is clamped
against the balance read *inside* the atomic update, so the committed
balance is never negative.  In the source the clamp (src/index.js lines
221-223) uses the balance read *before* the random draw, and the
transaction body (lines 255-265) adds `candyChange` with no further clamp.
With a pre-read balance of 5, a trick of magnitude 5 (draws `p1 = 0`,
`r = 2/3`) is not clamped (`candyChange = -5`), and committing against a
transaction-read balance of 3 persists `3 + (-5) = -2 < 0`. -/
theorem trick_clamp_not_recomputed_in_transaction :
    (computeOutcome 5 (fun n => if n = 0 then 0 else if n = 1 then 2/3 else 0)).candyChange
      = -5 ∧
    (applyRewardTransaction
        (fun _ => some { candy := 3, title := "New Trick-or-Treater", inventory := [], lastUsed := 0 })
        "u" "alice" 7200000
        (computeOutcome 5 (fun n => if n = 0 then 0 else if n = 1 then 2/3 else 0)).candyChange).2.candy
      = -2 ∧
    (applyRewardTransaction
        (fun _ => some { candy := 3, title := "New Trick-or-Treater", inventory := [], lastUsed := 0 })
        "u" "alice" 7200000
        (computeOutcome 5 (fun n => if n = 0 then 0 else if n = 1 then 2/3 else 0)).candyChange).2.candy
      < 0 := by
  with_unfolding_all decide

/-! ## C8: profile-read failure is not reported -/

set_option maxRecDepth 4000 in
/-- C8 counterexample: after a failed profile read, the `/shop` reply is
byte-for-byte the reply of a successful read of an absent record, and the
`/trickortreat` reply (same draws) is likewise identical — the commands
proceed with the fallback profile (candy 0, lastUsed 0) as if the read had
succeeded, reporting nothing. -/
theorem read_failure_not_reported :
    (handleShop (fun _ => none) true "u").2 = (handleShop (fun _ => none) false "u").2 ∧
    (handleTrickOrTreat (fun _ => none) true "u" "alice" 7200000
        (fun n => if n = 0 then 1/2 else if n = 1 then 1/2 else 1/2)).2 =
      (handleTrickOrTreat (fun _ => none) false "u" "alice" 7200000
        (fun n => if n = 0 then 1/2 else if n = 1 then 1/2 else 1/2)).2 := by
  with_unfolding_all decide

/-- C8 amended: when the profile read fails, `getUserProfile` returns the
fallback profile (candy 0, title `"Error Status"`, empty inventory,
`lastUsed 0`) and the dependent commands proceed with it; the shop reply is
the description of that fallback profile, and only the inventory command
exposes the `"Error Status"` title. -/
theorem read_failure_falls_back :
    errorProfile = { candy := 0, title := "Error Status", inventory := [], lastUsed := 0 } ∧
    (∀ (store : Store) (uid : String),
      getUserProfile store true uid = errorProfile ∧
      (handleShop store true uid).2 = shopDescription errorProfile ∧
      (handleInventory store true uid).2 = some ("Error Status", 0, "None")) := by
  refine ⟨rfl, fun store uid => ⟨rfl, rfl, ?_⟩⟩
  with_unfolding_all rfl

/-! ## C10: inventory lookup of an unknown item id fails -/

/-- C10: a profile whose inventory holds the id `"broom"`, which is not in
the fixed catalog, makes the per-item lookup of `/inventory` return `none`
(in the source, `SHOP_ITEMS.find(...)` yields `undefined` and the `.name`
access throws), so the inventory display cannot be produced for such a
profile. -/
theorem inventory_unknown_id_fails :
    itemName "broom" = none ∧
    itemsOwnedField ["broom"] = none ∧
    (handleInventory
      (fun _ => some { candy := 5, title := "The Bewitched", inventory := ["broom"], lastUsed := 0 })
      false "u").2 = none := by
  with_unfolding_all decide

/-! ## C6: shop catalog and affordability -/

/-- C6: the catalog is the fixed ordered list of exactly 3 items (declaration
order `hat`, `mask`, `ghost`, each with a positive integer cost — a pure
value, so every call returns the identical list), and for every profile and
item the status is `owned` iff the item id is in the inventory (taking
precedence over the cost check), else `buyable` iff `candy ≥ cost`, else
`tooExpensive`; the displayed status string is determined by that
affordability value. -/
theorem shop_catalog_correct :
    listItems = SHOP_ITEMS ∧
    listItems.length = 3 ∧
    listItems.map ShopItem.id = ["hat", "mask", "ghost"] ∧
    (∀ item ∈ listItems, 0 < item.cost) ∧
    (∀ (profile : Profile) (item : ShopItem),
      (affordability profile item = .owned ↔ item.id ∈ profile.inventory) ∧
      (item.id ∉ profile.inventory →
        (affordability profile item = .buyable ↔ item.cost ≤ profile.candy) ∧
        (affordability profile item = .tooExpensive ↔ profile.candy < item.cost)) ∧
      shopStatus profile item =
        (match affordability profile item with
          | .owned => "✅ OWNED"
          | .buyable => "🟢 BUYABLE"
          | .tooExpensive => "🔴 TOO POOR")) := by
  refine ⟨rfl, rfl, by with_unfolding_all decide, by with_unfolding_all decide,
    fun profile item => ?_⟩
  have hmem : profile.inventory.contains item.id = true ↔ item.id ∈ profile.inventory := by
    simp [List.contains, List.elem_iff]
  constructor
  · unfold affordability
    split <;> rename_i h1
    · simpa using hmem.mp h1
    · have : ¬ item.id ∈ profile.inventory := fun hm => h1 (hmem.mpr hm)
      split <;> simp [this]
  constructor
  · intro hnot
    have h1 : profile.inventory.contains item.id = false := by
      rw [Bool.eq_false_iff]
      intro hc
      exact hnot (hmem.mp hc)
    unfold affordability
    rw [h1]
    simp only [Bool.false_eq_true, if_false]
    split <;> rename_i h2
    · simp only [ge_iff_le] at h2
      constructor <;> constructor <;> intro h3 <;> first | rfl | omega | simp at h3
    · simp only [ge_iff_le, not_le] at h2
      constructor <;> constructor <;> intro h3 <;> first | rfl | omega | simp at h3
  · unfold shopStatus affordability
    split
    · rfl
    · split <;> rfl

/-- Witness for C6 at a profile owning `mask` with 100 candy, against the
`hat` item: `hat` is not owned and is affordable. -/
theorem shop_catalog_correct_witness :
    (("hat" : String) ∉ ["mask"]) ∧
    ((affordability { candy := 100, title := "The Maniac", inventory := ["mask"], lastUsed := 0 }
        { id := "hat", name := "Witch\x27s Hat", cost := 50, title := "The Bewitched", color := "#8b008b" }
        = .buyable ↔
      (50 : ℤ) ≤ 100) ∧
     (affordability { candy := 100, title := "The Maniac", inventory := ["mask"], lastUsed := 0 }
        { id := "hat", name := "Witch\x27s Hat", cost := 50, title := "The Bewitched", color := "#8b008b" }
        = .tooExpensive ↔
      (100 : ℤ) < 50)) :=
  ⟨by with_unfolding_all decide,
   (shop_catalog_correct.2.2.2.2
      { candy := 100, title := "The Maniac", inventory := ["mask"], lastUsed := 0 }
      { id := "hat", name := "Witch\x27s Hat", cost := 50, title := "The Bewitched", color := "#8b008b" }).2.1
     (by with_unfolding_all decide)⟩

/-! ## C2: trick branch -/

/-- C2: `computeOutcome` enters the Trick branch exactly when the first draw
is `< 0.10`; the trick magnitude `⌊rng 1 * 6⌋ + 1` is an integer in `[1,6]`,
uniform in the sense that it equals `k` exactly on the length-`1/6` interval
`[(k-1)/6, k/6)` of the draw; `candyChange` is the negated magnitude clamped
to `-candy` (i.e. `-(min magnitude candy)`), so the balance floors at
exactly 0; the message set has exactly 3 lines, the chosen message is one of
the lines built from the *post-clamp* `|candyChange|`, and the uniform
second draw selects index `j` exactly on `[j/3, (j+1)/3)`. -/
theorem trick_branch_correct (candy : ℤ) (rng : ℕ → ℚ)
    (hc : 0 ≤ candy)
    (h1l : 0 ≤ rng 1) (h1u : rng 1 < 1)
    (h2l : 0 ≤ rng 2) (h2u : rng 2 < 1) :
    ((computeOutcome candy rng).isTrick = true ↔ rng 0 < 0.10) ∧
    (rng 0 < 0.10 →
      (1 ≤ ⌊rng 1 * 6⌋ + 1 ∧ ⌊rng 1 * 6⌋ + 1 ≤ 6) ∧
      (∀ k : ℤ, 1 ≤ k → k ≤ 6 →
        (⌊rng 1 * 6⌋ + 1 = k ↔ ((k : ℚ) - 1) / 6 ≤ rng 1 ∧ rng 1 < (k : ℚ) / 6)) ∧
      (computeOutcome candy rng).candyChange = -(min (⌊rng 1 * 6⌋ + 1) candy) ∧
      0 ≤ candy + (computeOutcome candy rng).candyChange ∧
      (candy < ⌊rng 1 * 6⌋ + 1 → candy + (computeOutcome candy rng).candyChange = 0) ∧
      (tricks (computeOutcome candy rng).candyChange.natAbs).length = 3 ∧
      (computeOutcome candy rng).message ∈ tricks (computeOutcome candy rng).candyChange.natAbs ∧
      (∀ j : ℕ, j < 3 →
        ((⌊rng 2 * 3⌋).toNat = j ↔ (j : ℚ) / 3 ≤ rng 2 ∧ rng 2 < ((j : ℚ) + 1) / 3))) := by
  have hm0 : 0 ≤ ⌊rng 1 * 6⌋ := Int.floor_nonneg.2 (by positivity)
  have hm5 : ⌊rng 1 * 6⌋ < 6 := Int.floor_lt.2 (by push_cast; nlinarith)
  constructor
  · by_cases h0 : rng 0 < 0.10
    · simp [computeOutcome, h0]
    · simp only [computeOutcome, if_neg h0]
      split
      · simp [h0]
      · split <;> simp [h0]
  · intro h0
    have hcc : (computeOutcome candy rng).candyChange = -(min (⌊rng 1 * 6⌋ + 1) candy) := by
      simp only [computeOutcome, if_pos h0]
      split <;> omega
    refine ⟨⟨by omega, by omega⟩, ?_, hcc, by rw [hcc]; omega, by rw [hcc]; omega,
      by simp [tricks], ?_, ?_⟩
    · intro k hk1 hk6
      have h6 : (0:ℚ) < 6 := by norm_num
      constructor
      · intro hek
        have hfe : ⌊rng 1 * 6⌋ = k - 1 := by omega
        have hiff := Int.floor_eq_iff.mp hfe
        constructor
        · rw [div_le_iff₀ h6]
          push_cast at hiff ⊢
          linarith [hiff.1]
        · rw [lt_div_iff₀ h6]
          push_cast at hiff ⊢
          linarith [hiff.2]
      · rintro ⟨hlo, hhi⟩
        have h1 : ((k:ℚ) - 1) ≤ rng 1 * 6 := by
          rw [div_le_iff₀ h6] at hlo
          linarith
        have h2 : rng 1 * 6 < (k:ℚ) := by
          rw [lt_div_iff₀ h6] at hhi
          linarith
        have hfe : ⌊rng 1 * 6⌋ = k - 1 := by
          apply Int.floor_eq_iff.mpr
          constructor
          · push_cast
            linarith
          · push_cast
            linarith
        omega
    · simp only [computeOutcome, if_pos h0]
      have hlen : ((tricks (Int.natAbs (if candy + (-⌊rng 1 * 6⌋ - 1) < 0 then -candy
          else -⌊rng 1 * 6⌋ - 1))).length : ℚ) = 3 := by
        simp [tricks]
      simp only [hlen]
      have hi0 : 0 ≤ ⌊rng 2 * 3⌋ := Int.floor_nonneg.2 (by positivity)
      have hi3 : ⌊rng 2 * 3⌋ < 3 := Int.floor_lt.2 (by push_cast; nlinarith)
      set i := (⌊rng 2 * 3⌋).toNat with hidef
      have hlt : i < 3 := by omega
      interval_cases i <;> simp [tricks]
    · intro j hj
      have h3 : (0:ℚ) < 3 := by norm_num
      have hi0 : 0 ≤ ⌊rng 2 * 3⌋ := Int.floor_nonneg.2 (by positivity)
      constructor
      · intro hej
        have hfe : ⌊rng 2 * 3⌋ = (j : ℤ) := by omega
        have hiff := Int.floor_eq_iff.mp hfe
        constructor
        · rw [div_le_iff₀ h3]
          push_cast at hiff ⊢
          linarith [hiff.1]
        · rw [lt_div_iff₀ h3]
          push_cast at hiff ⊢
          linarith [hiff.2]
      · rintro ⟨hlo, hhi⟩
        rw [div_le_iff₀ h3] at hlo
        rw [lt_div_iff₀ h3] at hhi
        have hfe : ⌊rng 2 * 3⌋ = (j : ℤ) := by
          apply Int.floor_eq_iff.mpr
          constructor
          · push_cast
            linarith
          · push_cast
            linarith
        omega

/-- Witness for C2 at `candy = 3` with draws `p1 = 0` (trick),
magnitude draw `2/3`, message draw `1/2`. -/
theorem trick_branch_correct_witness :
    (0 ≤ (3:ℤ) ∧
     0 ≤ (fun n => if n = 0 then (0:ℚ) else if n = 1 then 2/3 else 1/2) 1 ∧
     (fun n => if n = 0 then (0:ℚ) else if n = 1 then 2/3 else 1/2) 1 < 1 ∧
     0 ≤ (fun n => if n = 0 then (0:ℚ) else if n = 1 then 2/3 else 1/2) 2 ∧
     (fun n => if n = 0 then (0:ℚ) else if n = 1 then 2/3 else 1/2) 2 < 1) ∧
    ((computeOutcome 3 (fun n => if n = 0 then (0:ℚ) else if n = 1 then 2/3 else 1/2)).isTrick = true ↔
      (fun n => if n = 0 then (0:ℚ) else if n = 1 then 2/3 else 1/2) 0 < 0.10) :=
  ⟨⟨by norm_num, by with_unfolding_all decide, by with_unfolding_all decide,
    by with_unfolding_all decide, by with_unfolding_all decide⟩,
   (trick_branch_correct 3 (fun n => if n = 0 then (0:ℚ) else if n = 1 then 2/3 else 1/2)
      (by norm_num) (by with_unfolding_all decide) (by with_unfolding_all decide)
      (by with_unfolding_all decide) (by with_unfolding_all decide)).1⟩

/-! ## C3: treat branch -/

/-- C3: in the Treat branch the second draw selects the tier — `< 0.75`
Common with magnitude in `[1,5]`, `0.75 ≤ _ < 0.95` Rare with magnitude in
`[6,15]` (so a draw of exactly 0.75 selects Rare), `≥ 0.95` Jackpot with
magnitude in `[16,35]` (so a draw of exactly 0.95 selects Jackpot) — and
`candyChange` is the positive magnitude with no clamp. -/
theorem treat_branch_correct (candy : ℤ) (rng : ℕ → ℚ)
    (h2l : 0 ≤ rng 2) (h2u : rng 2 < 1) (h0 : ¬ rng 0 < 0.10) :
    (computeOutcome candy rng).isTrick = false ∧
    0 < (computeOutcome candy rng).candyChange ∧
    (rng 1 < 0.75 →
      (computeOutcome candy rng).title = "A Sweet Treat!" ∧
      (computeOutcome candy rng).candyChange = ⌊rng 2 * 5⌋ + 1 ∧
      1 ≤ (computeOutcome candy rng).candyChange ∧
      (computeOutcome candy rng).candyChange ≤ 5) ∧
    (0.75 ≤ rng 1 → rng 1 < 0.95 →
      (computeOutcome candy rng).title = "Bonus Haul!" ∧
      (computeOutcome candy rng).candyChange = ⌊rng 2 * 10⌋ + 6 ∧
      6 ≤ (computeOutcome candy rng).candyChange ∧
      (computeOutcome candy rng).candyChange ≤ 15) ∧
    (0.95 ≤ rng 1 →
      (computeOutcome candy rng).title = "Jackpot! The Motherlode!" ∧
      (computeOutcome candy rng).candyChange = ⌊rng 2 * 20⌋ + 16 ∧
      16 ≤ (computeOutcome candy rng).candyChange ∧
      (computeOutcome candy rng).candyChange ≤ 35) := by
  have h5a : 0 ≤ ⌊rng 2 * 5⌋ := Int.floor_nonneg.2 (by positivity)
  have h5b : ⌊rng 2 * 5⌋ < 5 := Int.floor_lt.2 (by push_cast; nlinarith)
  have h10a : 0 ≤ ⌊rng 2 * 10⌋ := Int.floor_nonneg.2 (by positivity)
  have h10b : ⌊rng 2 * 10⌋ < 10 := Int.floor_lt.2 (by push_cast; nlinarith)
  have h20a : 0 ≤ ⌊rng 2 * 20⌋ := Int.floor_nonneg.2 (by positivity)
  have h20b : ⌊rng 2 * 20⌋ < 20 := Int.floor_lt.2 (by push_cast; nlinarith)
  by_cases ht75 : rng 1 < 0.75
  · simp only [computeOutcome, if_neg h0, if_pos ht75]
    exact ⟨by trivial, by omega, fun _ => ⟨by trivial, by trivial, by omega, by omega⟩,
      fun hge _ => absurd hge (not_le.mpr ht75),
      fun hge => absurd (lt_of_lt_of_le ht75 (by norm_num)) (not_lt.mpr hge)⟩
  · by_cases ht95 : rng 1 < 0.95
    · simp only [computeOutcome, if_neg h0, if_neg ht75, if_pos ht95]
      exact ⟨by trivial, by omega, fun hlt => absurd hlt ht75,
        fun _ _ => ⟨by trivial, by trivial, by omega, by omega⟩,
        fun hge => absurd ht95 (not_lt.mpr hge)⟩
    · simp only [computeOutcome, if_neg h0, if_neg ht75, if_neg ht95]
      exact ⟨by trivial, by omega, fun hlt => absurd hlt ht75,
        fun _ h95 => absurd h95 ht95,
        fun _ => ⟨by trivial, by trivial, by omega, by omega⟩⟩

/-- Witness for C3 at the Rare boundary: tier draw exactly `3/4 = 0.75`
selects Rare (not Common), with magnitude draw `1/2`. -/
theorem treat_branch_correct_witness :
    (0 ≤ (fun n => if n = 0 then (1:ℚ)/2 else if n = 1 then 3/4 else 1/2) 2 ∧
     (fun n => if n = 0 then (1:ℚ)/2 else if n = 1 then 3/4 else 1/2) 2 < 1 ∧
     ¬ (fun n => if n = 0 then (1:ℚ)/2 else if n = 1 then 3/4 else 1/2) 0 < 0.10 ∧
     0.75 ≤ (fun n => if n = 0 then (1:ℚ)/2 else if n = 1 then 3/4 else 1/2) 1 ∧
     (fun n => if n = 0 then (1:ℚ)/2 else if n = 1 then 3/4 else 1/2) 1 < 0.95) ∧
    ((computeOutcome 0 (fun n => if n = 0 then (1:ℚ)/2 else if n = 1 then 3/4 else 1/2)).title = "Bonus Haul!" ∧
     (computeOutcome 0 (fun n => if n = 0 then (1:ℚ)/2 else if n = 1 then 3/4 else 1/2)).candyChange =
       ⌊(fun n => if n = 0 then (1:ℚ)/2 else if n = 1 then 3/4 else 1/2) 2 * 10⌋ + 6 ∧
     6 ≤ (computeOutcome 0 (fun n => if n = 0 then (1:ℚ)/2 else if n = 1 then 3/4 else 1/2)).candyChange ∧
     (computeOutcome 0 (fun n => if n = 0 then (1:ℚ)/2 else if n = 1 then 3/4 else 1/2)).candyChange ≤ 15) :=
  ⟨⟨by with_unfolding_all decide, by with_unfolding_all decide, by with_unfolding_all decide,
    by with_unfolding_all decide, by with_unfolding_all decide⟩,
   (treat_branch_correct 0 (fun n => if n = 0 then (1:ℚ)/2 else if n = 1 then 3/4 else 1/2)
      (by with_unfolding_all decide) (by with_unfolding_all decide)
      (by with_unfolding_all decide)).2.2.2.1
     (by with_unfolding_all decide) (by with_unfolding_all decide)⟩

/-! ## C7: leaderboard ranking and result variants -/

/-- The head character of an appended string is the head of its left part. -/
theorem append_data_head (a b : String) (c : Char) (h : a.data.head? = some c) :
    (a ++ b).data.head? = some c := by
  rw [String.data_append]
  cases ha : a.data with
  | nil =>
    rw [ha] at h
    cases h
  | cons x xs =>
    rw [ha] at h
    simpa using h

/-- Every leaderboard line starts with the rank marker character. -/
theorem leaderboardLine_data_head (rank : ℕ) (d : ProfileDoc) :
    (leaderboardLine rank d).data.head? = some '*' := by
  unfold leaderboardLine
  repeat' apply append_data_head
  with_unfolding_all decide

/-- Joining a nonempty list of lines keeps the first line's head character. -/
theorem joinLines_data_head (x : String) (xs : List String) (c : Char)
    (h : x.data.head? = some c) : (joinLines (x :: xs)).data.head? = some c := by
  cases xs with
  | nil => simpa [joinLines] using h
  | cons y ys =>
    show ((x ++ "\n") ++ joinLines (y :: ys)).data.head? = some c
    exact append_data_head _ _ _ (append_data_head _ _ _ h)

/-- A populated leaderboard reply starts with the rank marker character. -/
theorem topSpook_populated_head (store : Store) (d : ProfileDoc) (ds : List ProfileDoc) :
    ((handleTopSpook store (some (d :: ds))).2).data.head? = some '*' := by
  show (joinLines (leaderboardLine 1 d :: leaderboardLines 2 ds)).data.head? = some '*'
  exact joinLines_data_head _ _ _ (leaderboardLine_data_head 1 d)

/-- Line `k` of the ranked output carries rank `rank + k`, independent of the
documents' candy values. -/
theorem leaderboardLines_get? (rank : ℕ) (docs : List ProfileDoc) (k : ℕ) (h : k < docs.length) :
    (leaderboardLines rank docs).get? k = some (leaderboardLine (rank + k) (docs.get ⟨k, h⟩)) := by
  induction docs generalizing rank k with
  | nil => simp at h
  | cons d ds ih =>
    cases k with
    | zero => simp [leaderboardLines]
    | succ k =>
      have h2 : k < ds.length := by simpa using h
      show (leaderboardLines (rank + 1) ds).get? k = _
      rw [ih (rank + 1) k h2]
      have h3 : rank + 1 + k = rank + (k + 1) := by omega
      rw [h3]
      rfl

/-- C7: the ranked output assigns 1-based strictly sequential ranks — the
`k`-th line carries rank `1 + k`, for every document list, so tied candy
balances never share a rank; an empty population yields the explicit empty
message, a failed global query yields the distinct unavailable message, and
the three outcome shapes (populated, empty, unavailable) are pairwise
distinguishable. -/
theorem leaderboard_correct :
    (∀ (docs : List ProfileDoc) (k : ℕ) (h : k < docs.length),
      (leaderboardLines 1 docs).get? k = some (leaderboardLine (1 + k) (docs.get ⟨k, h⟩))) ∧
    (∀ store store' : Store,
      (handleTopSpook store (some [])).2 = emptyLeaderboardText ∧
      (handleTopSpook store' none).2 = unavailableLeaderboardText ∧
      (handleTopSpook store (some [])).2 ≠ (handleTopSpook store' none).2) ∧
    (∀ (store store' : Store) (d : ProfileDoc) (ds : List ProfileDoc),
      (handleTopSpook store (some (d :: ds))).2 ≠ (handleTopSpook store' none).2 ∧
      (handleTopSpook store (some (d :: ds))).2 ≠ (handleTopSpook store' (some [])).2) := by
  refine ⟨fun docs k h => leaderboardLines_get? 1 docs k h,
    fun store store' => ⟨rfl, rfl, fun heq => ?_⟩,
    fun store store' d ds => ⟨fun heq => ?_, fun heq => ?_⟩⟩
  · have h2 : (handleTopSpook store (some [])).2 = emptyLeaderboardText := rfl
    have h3 : (handleTopSpook store' none).2 = unavailableLeaderboardText := rfl
    rw [h2, h3] at heq
    exact absurd heq (by with_unfolding_all decide)
  · have h1 := topSpook_populated_head store d ds
    rw [heq] at h1
    have h2 : (handleTopSpook store' none).2 = unavailableLeaderboardText := rfl
    rw [h2] at h1
    exact absurd h1 (by with_unfolding_all decide)
  · have h1 := topSpook_populated_head store d ds
    rw [heq] at h1
    have h2 : (handleTopSpook store' (some [])).2 = emptyLeaderboardText := rfl
    rw [h2] at h1
    exact absurd h1 (by with_unfolding_all decide)

/-- Witness for C7 on two documents with tied candy balances: the second
line carries rank 2. -/
theorem leaderboard_correct_witness :
    (1 < ([{ username := some "A", title := none, candy := 30 },
           { username := none, title := some "t", candy := 30 }] : List ProfileDoc).length) ∧
    (leaderboardLines 1 [{ username := some "A", title := none, candy := 30 },
                         { username := none, title := some "t", candy := 30 }]).get? 1 =
      some (leaderboardLine (1 + 1)
        (([{ username := some "A", title := none, candy := 30 },
           { username := none, title := some "t", candy := 30 }] : List ProfileDoc).get
          ⟨1, by with_unfolding_all decide⟩)) :=
  ⟨by with_unfolding_all decide,
   leaderboard_correct.1
     [{ username := some "A", title := none, candy := 30 },
      { username := none, title := some "t", candy := 30 }] 1 (by with_unfolding_all decide)⟩

/-! ## C9: reads persist nothing; only a successful reward action writes -/

/-- C9: reading an absent profile yields the default profile (candy 0, title
"New Trick-or-Treater", empty inventory, lastUsed 0) — and since every
handler returns its store unchanged except the successful reward path, no
command but a successful `/trickortreat` writes: inventory, shop and
topspook pass the store through untouched, a cooldown-blocked
`/trickortreat` passes it through untouched, and the successful path leaves
every key other than the invoking user's unchanged. -/
theorem store_frame_correct :
    defaultProfile =
      { candy := 0, title := "New Trick-or-Treater", inventory := [], lastUsed := 0,
        username := none } ∧
    (∀ (store : Store) (uid : String), store uid = none →
      getUserProfile store false uid = defaultProfile) ∧
    (∀ (store : Store) (readFails : Bool) (uid : String),
      (handleInventory store readFails uid).1 = store ∧
      (handleShop store readFails uid).1 = store) ∧
    (∀ (store : Store) (q : Option (List ProfileDoc)),
      (handleTopSpook store q).1 = store) ∧
    (∀ (store : Store) (readFails : Bool) (uid username : String) (now : ℤ) (rng : ℕ → ℚ),
      (now < (getUserProfile store readFails uid).lastUsed + COOLDOWN_TIME →
        (handleTrickOrTreat store readFails uid username now rng).1 = store) ∧
      (∀ v : String, v ≠ uid →
        (handleTrickOrTreat store readFails uid username now rng).1 v = store v)) := by
  refine ⟨rfl, fun store uid h => by simp [getUserProfile, h],
    fun store rf uid => ⟨rfl, rfl⟩, fun store q => ?_,
    fun store rf uid un now rng => ⟨fun hblk => ?_, fun v hv => ?_⟩⟩
  · cases q with
    | none => rfl
    | some docs => cases docs <;> rfl
  · simp [handleTrickOrTreat, isAllowed, hblk]
  · by_cases hb : (getUserProfile store rf uid).lastUsed + COOLDOWN_TIME > now
    · simp [handleTrickOrTreat, isAllowed, hb]
    · simp [handleTrickOrTreat, isAllowed, hb, applyRewardTransaction, hv]

/-- Witness for C9 on the empty store: the default profile is returned, a
blocked action leaves the store unchanged, and the reward path leaves the
key of a different user unchanged. -/
theorem store_frame_correct_witness :
    (((fun _ : String => (none : Option Profile)) "u" = none) ∧
     ((0:ℤ) < (getUserProfile (fun _ => none) false "u").lastUsed + COOLDOWN_TIME) ∧
     (("v" : String) ≠ "u")) ∧
    (getUserProfile (fun _ => none) false "u" = defaultProfile ∧
     (handleTrickOrTreat (fun _ => none) false "u" "alice" 0 (fun _ => 1/2)).1 =
       (fun _ => none) ∧
     (handleTrickOrTreat (fun _ => none) false "u" "alice" 0 (fun _ => 1/2)).1 "v" =
       (fun _ : String => (none : Option Profile)) "v") :=
  ⟨⟨rfl, by with_unfolding_all decide, by with_unfolding_all decide⟩,
   store_frame_correct.2.1 (fun _ => none) "u" rfl,
   (store_frame_correct.2.2.2.2 (fun _ => none) false "u" "alice" 0 (fun _ => 1/2)).1
     (by with_unfolding_all decide),
   (store_frame_correct.2.2.2.2 (fun _ => none) false "u" "alice" 0 (fun _ => 1/2)).2 "v"
     (by with_unfolding_all decide)⟩

end HalloweenBot
